import Mathlib

/-!
Shallow embedding of the core logic of the `prompt-mirror` repository
(`src/t004_prompt_mirror/logic.py`): a rule-based prompt analyzer
(`analyze_prompt`) and a template-based rewriter (`rewrite_prompt`).

Python regular-expression searches are embedded as executable scanners over
`List Char`.  The embedding models the ASCII semantics of the patterns
(`\w` = letters, digits, underscore; `\s` = space, tab, newline, carriage
return, vertical tab, form feed; case folding on ASCII letters), which is
faithful on all ASCII inputs.  Where CPython iterates a `set` with an
unspecified tie order (`sorted(set(...), key=len, reverse=True)`), the
embedding fixes the tie order to the original list order; the functions'
results are independent of that tie order for these vocabularies because
string containment only relates terms of different lengths.
-/

namespace PromptMirror

/-! ### Character classes (ASCII model of Python `\w`, `\s`, `\d`, lowering) -/

def pyWs (c : Char) : Bool :=
  c == ' ' || c == '\t' || c == '\n' || c == '\r' || c == '\x0b' || c == '\x0c'

def isWordChar (c : Char) : Bool :=
  c.isAlpha || c.isDigit || c == '_'

def lowerL (l : List Char) : List Char := l.map Char.toLower

/-! ### Search primitives used to embed the regex searches -/

/-- Does `pat` occur starting exactly at index `i` of `s`? -/
def prefixAt (pat s : List Char) (i : Nat) : Bool :=
  pat.isPrefixOf (s.drop i)

/-- Is the character at index `i` of `s` a word character (`false` past the end)? -/
def wordAt (s : List Char) (i : Nat) : Bool :=
  match s.get? i with
  | some c => isWordChar c
  | none => false

/-- Occurrence of `pat` at index `i` with a word boundary on both sides
(model of `\b pat \b` for a literal `pat` that starts and ends with a word
character). -/
def boundedAt (pat s : List Char) (i : Nat) : Bool :=
  prefixAt pat s i && (i == 0 || !wordAt s (i - 1)) && !wordAt s (i + pat.length)

def boundedOccurs (pat : String) (s : List Char) : Bool :=
  (List.range (s.length + 1)).any (boundedAt pat.data s)

def boundedAny (pats : List String) (s : List Char) : Bool :=
  pats.any (fun p => boundedOccurs p s)

/-- Occurrence of `pat` at index `i` with a word boundary on the left only
(model of `\b pat` for a literal starting with a word character). -/
def leftBoundedAt (pat s : List Char) (i : Nat) : Bool :=
  prefixAt pat s i && (i == 0 || !wordAt s (i - 1))

def leftBoundedOccurs (pat : String) (s : List Char) : Bool :=
  (List.range (s.length + 1)).any (leftBoundedAt pat.data s)

def leftBoundedAny (pats : List String) (s : List Char) : Bool :=
  pats.any (fun p => leftBoundedOccurs p s)

/-- Plain (unanchored, unbounded) substring occurrence. -/
def containsSub (needle hay : List Char) : Bool :=
  (List.range (hay.length + 1)).any (prefixAt needle hay)

def substrAny (pats : List String) (s : List Char) : Bool :=
  pats.any (fun p => containsSub p.data s)

/-! ### The structural detectors of `analyze_prompt` -/

/-- Model of `re.search(r"\b\d+(?:\.\d+)?\b", text)` (the numeral test inside
`_has_constraints`): the flag tracks whether the previous character is a word
character; a maximal digit run that starts at a word boundary matches iff the
character after the run is absent or a non-word character (the optional
`.\d+` group never affects matchability because `.` is itself a non-word
character, so the `\b` after the first digit run already succeeds). -/
def hasBoundedNumberGo : Bool → List Char → Bool
  | _, [] => false
  | prevWord, c :: rest =>
    if c.isDigit && !prevWord then
      (match rest.dropWhile Char.isDigit with
       | [] => true
       | d :: _ => !isWordChar d) || hasBoundedNumberGo true rest
    else
      hasBoundedNumberGo (isWordChar c) rest

def hasBoundedNumber (s : List Char) : Bool := hasBoundedNumberGo false s

/-- The alternatives of `CONSTRAINT_PATTERN` (no `\b` anchors in the source
pattern, so these are plain substring searches; `constraints?` is covered by
the substring `constraint`). -/
def constraintTerms : List String :=
  ["constraint", "assume", "exclude", "limit", "deadline", "budget", "must",
   "exactly", "at least", "no more than"]

/-- Model of `_has_constraints` from `logic.py`: the numeral regex runs on
the original text (it has no `IGNORECASE` flag and lowering would not change
digits or word characters anyway); `CONSTRAINT_PATTERN` is case-insensitive,
so it searches the lowered text. -/
def hasConstraints (orig : List Char) : Bool :=
  hasBoundedNumber orig || substrAny constraintTerms (lowerL orig)

def taskVerbs : List String :=
  ["write", "draft", "plan", "create", "design", "develop", "compare",
   "summarize", "analyze", "build", "outline", "generate", "evaluate",
   "produce", "compose", "audit", "assess"]

/-- Model of `TASK_PATTERN.search`: `^\s*(verb|...)\b` without `re.MULTILINE`,
so the verb must follow the leading whitespace of the whole text. -/
def taskCheck (l : List Char) : Bool :=
  let rest := l.dropWhile pyWs
  taskVerbs.any (fun v => prefixAt v.data rest 0 && !wordAt rest v.length)

def formatVerbs : List String :=
  ["output", "return", "respond", "deliver", "format", "present", "provide"]

def formatNouns : List String :=
  ["json", "table", "markdown", "bullet", "bullets", "list", "outline", "chart"]

/-- Model of `FORMAT_PATTERN.search`: a word-bounded delivery verb followed
(anywhere later, `.*` with `DOTALL`) by a word-bounded format noun. -/
def formatCheck (s : List Char) : Bool :=
  (List.range (s.length + 1)).any fun i =>
    formatVerbs.any fun v =>
      boundedAt v.data s i &&
      (List.range (s.length + 1)).any fun j =>
        decide (i + v.length ≤ j) && formatNouns.any fun n => boundedAt n.data s j

/-- Occurrence of the `step\s*\d+` alternative of `STEPS_PATTERN` at index
`i`: left word boundary, literal `step`, any whitespace, a digit run, then a
word boundary. -/
def stepNumAt (s : List Char) (i : Nat) : Bool :=
  (i == 0 || !wordAt s (i - 1)) &&
  prefixAt ("step".data) s i &&
  (let after := (s.drop (i + 4)).dropWhile pyWs
   match after with
   | [] => false
   | d :: _ =>
     d.isDigit &&
     (match after.dropWhile Char.isDigit with
      | [] => true
      | e :: _ => !isWordChar e))

def stepNumOccurs (s : List Char) : Bool :=
  (List.range (s.length + 1)).any (stepNumAt s)

def stepWords : List String :=
  ["steps", "process", "first", "second", "third", "then", "next", "finally"]

/-- Model of `STEPS_PATTERN.search`. -/
def stepsCheck (l : List Char) : Bool :=
  stepNumOccurs l || boundedAny stepWords l

/-- The expanded alternatives of `SUCCESS_PATTERN` (the optional
`(?: criteria| when)?` group is expanded into separate alternatives). -/
def successTerms : List String :=
  ["success criteria", "success when", "success", "acceptance",
   "definition of done", "done when", "complete when"]

/-- The alternatives of `EXAMPLE_PATTERN` (left `\b` only in the source). -/
def exampleTerms : List String :=
  ["example", "for instance", "eg:", "e.g."]

/-! ### Vocabularies (`AMBIGUOUS_TERMS`, `VAGUE_QUANTIFIERS`, replacements) -/

/-- `sorted(AMBIGUOUS_TERMS, key=len, reverse=True)`: length-descending, ties
in the original list order (Python's sort is stable; for `_find_terms`, which
sorts `set(AMBIGUOUS_TERMS)` with an unspecified tie order, any tie order
yields the same result because containment only holds between terms of
different lengths). -/
def ambTermOrder : List String :=
  ["marketing plan", "user friendly", "help me with", "efficient",
   "as needed", "optimize", "flexible", "scalable", "strategy", "improve",
   "assist", "better", "robust", "modern", "help", "easy", "nice"]

/-- `sorted(VAGUE_QUANTIFIERS, key=len, reverse=True)` with ties in original
list order. -/
def vagueTermOrder : List String :=
  ["regularly", "sometimes", "numerous", "several", "quickly", "usually",
   "various", "handful", "couple", "often", "some", "many", "soon", "asap",
   "few"]

/-- `AMBIGUOUS_REPLACEMENTS.get(term, "")` from `logic.py`. -/
def replacementFor (t : String) : String :=
  if t = "help me with" then "create"
  else if t = "help" then "deliver"
  else if t = "assist" then "provide"
  else if t = "optimize" then "fine-tune"
  else if t = "improve" then "strengthen"
  else if t = "better" then "enhance"
  else if t = "marketing plan" then "go-to-market roadmap"
  else if t = "strategy" then "action blueprint"
  else if t = "user friendly" then "accessible for end users"
  else if t = "modern" then "contemporary"
  else ""

/-! ### `_find_terms` and `_normalize_terms` -/

/-- Lexicographic order on code points, as Python compares strings. -/
def lexLe : List Char → List Char → Bool
  | [], _ => true
  | _ :: _, [] => false
  | c :: cs, d :: ds =>
    if c = d then lexLe cs ds else decide (c.toNat < d.toNat)

/-- Lexicographic-ascending insertion used to model Python's `sorted` on a
list of strings (the lists sorted here never contain duplicates, so stability
is irrelevant). -/
def insertStr (x : String) : List String → List String
  | [] => [x]
  | y :: ys => if lexLe x.data y.data then x :: y :: ys else y :: insertStr x ys

def sortStrings (l : List String) : List String := l.foldr insertStr []

/-- The loop body of `_find_terms`: scan the length-ordered term list; a term
that occurs in the lowered text is appended unless it is a substring of an
already-found term. -/
def findTermsGo (lowered : List Char) : List String → List String → List String
  | found, [] => found
  | found, t :: ts =>
    if containsSub t.data lowered then
      if found.any (fun ex => containsSub t.data ex.data) then
        findTermsGo lowered found ts
      else
        findTermsGo lowered (found ++ [t]) ts
    else
      findTermsGo lowered found ts

/-- Model of `_find_terms(text, term_list)` (result returned sorted). -/
def findTerms (orderedTerms : List String) (text : String) : List String :=
  sortStrings (findTermsGo (lowerL text.data) [] orderedTerms)

/-- Model of `_normalize_terms`: rename `"help me with"` to `"help"` and
deduplicate, keeping first-occurrence order. -/
def normalizeTermsGo : List String → List String → List String
  | acc, [] => acc
  | acc, t :: ts =>
    let t' := if t = "help me with" then "help" else t
    if acc.contains t' then normalizeTermsGo acc ts
    else normalizeTermsGo (acc ++ [t']) ts

def normalizeTerms (terms : List String) : List String :=
  normalizeTermsGo [] terms

/-! ### `_count_dangling_pronouns` -/

def pronounWords : List String := ["it", "this", "that", "they"]

def linkingVerbs : List String :=
  ["is", "are", "was", "were", "should", "must", "can", "will", "need", "needs"]

/-- Try to match `(?:it|this|that|they)\s+(?:is|...|needs)\b` at the head of
`s` (which is already lowered); returns the length of the match.  `\s+` is
effectively the maximal whitespace run, since the verbs start with non-space
characters; the trailing `\b` requires a non-word character (or the end)
after the verb. -/
def danglingTry (s : List Char) : Option Nat :=
  pronounWords.findSome? fun p =>
    if prefixAt p.data s 0 then
      let rest := s.drop p.length
      let wsLen := (rest.takeWhile pyWs).length
      if wsLen == 0 then none
      else
        let rest2 := rest.drop wsLen
        linkingVerbs.findSome? fun v =>
          if prefixAt v.data rest2 0 && !wordAt rest2 v.length then
            some (p.length + wsLen + v.length)
          else none
    else none

/-- `re.findall` scan: left-to-right, non-overlapping; a match may only start
at a word boundary (every match starts with a letter, so the previous
character must be a non-word character or absent).  The fuel argument is the
length of the scanned list, which bounds the number of steps since every step
consumes at least one character. -/
def danglingGo : Nat → Bool → List Char → Nat
  | 0, _, _ => 0
  | _ + 1, _, [] => 0
  | fuel + 1, prevWord, c :: rest =>
    if prevWord then danglingGo fuel (isWordChar c) rest
    else
      match danglingTry (c :: rest) with
      | some k => 1 + danglingGo fuel true ((c :: rest).drop k)
      | none => danglingGo fuel (isWordChar c) rest

def danglingCount (l : List Char) : Nat := danglingGo l.length false l

/-! ### Checks, flags, score, notes -/

structure Checks where
  has_role : Bool
  has_task : Bool
  has_inputs : Bool
  has_constraints : Bool
  has_format : Bool
  has_examples : Bool
  has_steps : Bool
  has_success_criteria : Bool
deriving DecidableEq, Repr

structure Flags where
  ambiguous_terms : List String
  vague_quantifiers : List String
  dangling_pronouns : Nat
deriving DecidableEq, Repr

structure Analysis where
  checks : Checks
  flags : Flags
  score : Int
  notes : List String
deriving DecidableEq, Repr

def countTrue (c : Checks) : Nat :=
  c.has_role.toNat + c.has_task.toNat + c.has_inputs.toNat +
  c.has_constraints.toNat + c.has_format.toNat + c.has_examples.toNat +
  c.has_steps.toNat + c.has_success_criteria.toNat

/-- Model of `_calculate_score`: 10 per true check, minus
`5*ambiguous + 2*vague + 3*dangling`, clamped to `[0, 100]`. -/
def calculateScore (c : Checks) (amb vague : List String) (dang : Nat) : Int :=
  max 0 (min 100 (10 * (countTrue c : Int) -
    (5 * (amb.length : Int) + 2 * (vague.length : Int) + 3 * (dang : Int))))

def roleNote : String :=
  "Add a clear role statement such as 'You are a specific type of expert.'"
def taskNote : String :=
  "Start with an imperative task that describes the expected action."
def inputsNote : String :=
  "Reference the inputs or source material the assistant should rely on."
def constraintsNote : String :=
  "List numeric or explicit constraints to narrow the solution space."
def formatNote : String :=
  "Specify the output format (tables, bullets, JSON, etc.)."
def examplesNote : String :=
  "Provide concrete examples to anchor expectations."
def stepsNote : String :=
  "Describe the process or steps the assistant should follow."
def successNote : String :=
  "Define what success looks like or how the result will be evaluated."
def fallbackNote : String :=
  "Prompt already covers the fundamentals; refine tone or examples as needed."

/-- One fixed message per missing check, in the insertion order of the
`missing_messages` dict in `_build_notes`. -/
def missingNotes (c : Checks) : List String :=
  (if c.has_role then [] else [roleNote]) ++
  (if c.has_task then [] else [taskNote]) ++
  (if c.has_inputs then [] else [inputsNote]) ++
  (if c.has_constraints then [] else [constraintsNote]) ++
  (if c.has_format then [] else [formatNote]) ++
  (if c.has_examples then [] else [examplesNote]) ++
  (if c.has_steps then [] else [stepsNote]) ++
  (if c.has_success_criteria then [] else [successNote])

def ambNoteList (amb : List String) : List String :=
  if amb.isEmpty then []
  else
    ["Clarify or replace ambiguous terms: " ++
      String.intercalate ", " (sortStrings amb) ++ "."]

def vagueNoteList (vague : List String) : List String :=
  if vague.isEmpty then []
  else
    ["Quantify vague language (specify counts, ranges, or timeframes) for: " ++
      String.intercalate ", " (sortStrings vague) ++ "."]

def danglingNoteList (dang : Nat) : List String :=
  if dang == 0 then []
  else ["Resolve dangling pronouns (it/this/that/they) by naming the referent."]

/-- The final `if not notes` fallback of `_build_notes`. -/
def withFallback (l : List String) : List String :=
  if l.isEmpty then [fallbackNote] else l

/-- Model of `_build_notes` (the sequence of conditional `append`s is written
as a concatenation of conditional singleton lists). -/
def buildNotes (c : Checks) (amb vague : List String) (dang : Nat) : List String :=
  withFallback
    (missingNotes c ++ ambNoteList amb ++ vagueNoteList vague ++ danglingNoteList dang)

/-! ### `analyze_prompt` -/

def rolePhrases : List String := ["you are", "act as"]

def inputPhrases : List String :=
  ["given", "using", "with this", "with the", "based on", "provided",
   "attached", "from"]

/-- Model of `analyze_prompt(text)`.  All `re.IGNORECASE` searches are run on
the lowered text with lowercase patterns; the numeral search inside
`_has_constraints` has no `IGNORECASE` flag and runs on the original text. -/
def analyzePrompt (text : String) : Analysis :=
  let l := lowerL text.data
  let checks : Checks :=
    { has_role := boundedAny rolePhrases l
      has_task := taskCheck l
      has_inputs := boundedAny inputPhrases l
      has_constraints := hasConstraints text.data
      has_format := formatCheck l
      has_examples := leftBoundedAny exampleTerms l
      has_steps := stepsCheck l
      has_success_criteria := boundedAny successTerms l }
  let ambiguousTerms := normalizeTerms (findTerms ambTermOrder text)
  let vagueQuantifiers := findTerms vagueTermOrder text
  let danglingPronouns := danglingCount l
  { checks := checks
    flags :=
      { ambiguous_terms := ambiguousTerms
        vague_quantifiers := vagueQuantifiers
        dangling_pronouns := danglingPronouns }
    score := calculateScore checks ambiguousTerms vagueQuantifiers danglingPronouns
    notes := buildNotes checks ambiguousTerms vagueQuantifiers danglingPronouns }

/-! ### Keyword extraction (`_extract_keywords`) -/

def stopwords : List String :=
  ["the", "a", "an", "and", "or", "of", "for", "with", "within", "on", "in",
   "to", "into", "me", "my", "our", "your", "their", "this", "that", "these",
   "those", "about", "at", "by", "from", "as", "it", "is", "are", "be",
   "need", "needs", "needed", "please", "would", "could", "should", "can",
   "we", "i"]

/-- Model of `re.findall(r"[a-zA-Z][a-zA-Z\-]+", text)`: a token is a letter
followed by a maximal nonempty run of letters and hyphens; single letters are
skipped; scanning continues after each match.  The fuel argument (the length
of the scanned list) bounds the number of steps, since every step consumes at
least one character. -/
def tokenizeGo : Nat → List Char → List (List Char)
  | 0, _ => []
  | _ + 1, [] => []
  | fuel + 1, c :: rest =>
    if c.isAlpha then
      let run := rest.takeWhile (fun d => d.isAlpha || d == '-')
      if run.isEmpty then tokenizeGo fuel rest
      else (c :: run) :: tokenizeGo fuel (rest.drop run.length)
    else tokenizeGo fuel rest

def tokenize (l : List Char) : List (List Char) := tokenizeGo l.length l

def keywordFilter (t : String) : Bool :=
  !stopwords.contains t && !ambTermOrder.contains t &&
    !vagueTermOrder.contains t && decide (2 < t.length)

/-- `Counter(filtered)`: counts keyed in first-encounter order. -/
def bumpCount (t : String) : List (String × Nat) → List (String × Nat)
  | [] => [(t, 1)]
  | (u, n) :: rest => if u = t then (u, n + 1) :: rest else (u, n) :: bumpCount t rest

def countOcc (tokens : List String) : List (String × Nat) :=
  tokens.foldl (fun acc t => bumpCount t acc) []

/-- Stable sort by count descending (`Counter.most_common`: ties keep
first-encounter order). -/
def insertByCount (x : String × Nat) : List (String × Nat) → List (String × Nat)
  | [] => [x]
  | y :: ys => if x.2 ≤ y.2 then y :: insertByCount x ys else x :: y :: ys

def sortByCountDesc (l : List (String × Nat)) : List (String × Nat) :=
  l.foldl (fun acc x => insertByCount x acc) []

/-- Model of `_extract_keywords(text, limit=6)`. -/
def extractKeywords (text : String) : List String :=
  let tokens := (tokenize (lowerL text.data)).map String.mk
  let filtered := tokens.filter keywordFilter
  ((sortByCountDesc (countOcc filtered)).take 6).map Prod.fst

/-! ### Phrase and section builders of the rewriter -/

def buildFocusPhrase (keywords : List String) : String :=
  if keywords.isEmpty then "project"
  else if keywords.contains "startup" && keywords.contains "marketing" then
    "startup marketing initiative"
  else if keywords.length == 1 then keywords.headD ""
  else keywords.headD "" ++ " " ++ (keywords.drop 1).headD ""

def buildAudiencePhrase (keywords : List String) : String :=
  if keywords.contains "startup" then "early-stage startup team"
  else if keywords.contains "students" then "student audience"
  else if keywords.contains "executive" || keywords.contains "leadership" then
    "executive stakeholders"
  else if !keywords.isEmpty then "stakeholders focused on " ++ keywords.headD ""
  else "target audience"

def buildRoleLine (keywords : List String) : String :=
  if keywords.contains "marketing" then
    "You are a marketing strategist specializing in go-to-market execution for startups."
  else if keywords.contains "product" || keywords.contains "design" then
    "You are a product discovery lead who converts fuzzy requests into actionable briefs."
  else if keywords.contains "sales" then
    "You are a revenue operations advisor aligned with data-backed sales planning."
  else if keywords.contains "content" || keywords.contains "writing" then
    "You are an editorial architect who crafts structured content playbooks."
  else if keywords.contains "analysis" || keywords.contains "analytics" then
    "You are a data insights consultant focusing on evidence-based recommendations."
  else if keywords.contains "engineering" || keywords.contains "software" then
    "You are a delivery-focused engineering lead who defines crisp build briefs."
  else
    "You are a clarity coach who turns goals into precise, testable instructions."

def buildTaskLine (focus : String) : String :=
  "Construct a detailed go-to-market roadmap for the " ++ focus ++
    ", highlighting decisions, rationales, and metrics."

def constraintsSection : String :=
  "Constraints:\n" ++ String.intercalate "\n"
    ["- Highlight exactly 3 priority initiatives with owners.",
     "- Reference a budget range of $5,000–$15,000 USD.",
     "- Assume a 30-day rollout timeline with weekly checkpoints."]

def formatSection : String :=
  "Output Format:\n" ++ String.intercalate "\n"
    ["- Return a markdown table with columns: Step, Owner, Channel, Rationale.",
     "- Follow with bullet points covering risks, assumptions, and next actions.",
     "- End with a short paragraph summarizing success metrics."]

def buildStepsSection (focus : String) : String :=
  "Steps:\n" ++ String.intercalate "\n"
    ["1. Clarify the audience and objectives for the " ++ focus ++ ".",
     "2. Audit existing assets and gaps using available inputs.",
     "3. Prioritize tactics against budget, timeline, and impact.",
     "4. Map messaging, channels, and ownership into the requested format.",
     "5. Define measurable KPIs and validation steps before concluding."]

def successSection : String :=
  "Success Criteria:\n" ++ String.intercalate "\n"
    ["- Recommendations align with the stated constraints and audience.",
     "- Output matches the markdown table and bullet list specification.",
     "- KPIs include clear numeric targets and monitoring cadence."]

def refusalSection : String :=
  "Refusal Boundaries:\n" ++ String.intercalate "\n"
    ["- Decline instructions that require unethical tactics or misuse of data.",
     "- Escalate if the request involves legal, medical, or financial compliance issues outside scope."]

/-! ### `_replace_ambiguous_terms` and `_summarize_source` -/

/-- One pass of `re.sub(re.escape(term), repl, result, flags=re.IGNORECASE)`:
left-to-right, non-overlapping, case-insensitive literal replacement; the
replacement text is not rescanned within the pass.  The `term ≠ []` guard is
vacuous for the actual vocabulary (no term is empty) and keeps the function
total. -/
def replaceAllGo (term repl : List Char) : Nat → List Char → List Char
  | 0, l => l
  | _ + 1, [] => []
  | fuel + 1, c :: rest =>
    if term ≠ [] ∧ lowerL ((c :: rest).take term.length) = term then
      repl ++ replaceAllGo term repl fuel ((c :: rest).drop term.length)
    else
      c :: replaceAllGo term repl fuel rest

def replaceAll (term repl : List Char) (l : List Char) : List Char :=
  replaceAllGo term repl l.length l

/-- The substitution loop of `_replace_ambiguous_terms`: each vocabulary term
longest-first (ties in original list order: Python sorts the list, stably),
replaced by its mapped replacement or removed. -/
def applyReplacements (l : List Char) : List Char :=
  ambTermOrder.foldl (fun acc t => replaceAll t.data (replacementFor t).data acc) l

/-- The largest position `p ≥ 1` holding `'\n'` in the whitespace run; used
to model the greedy match of `\s+\n`. -/
def lastNlPos (run : List Char) : Option Nat :=
  ((List.range run.length).filter
    (fun p => decide (1 ≤ p) && (run.get? p == some '\n'))).getLast?

/-- Model of `re.sub(r"\s+\n", "\n", s)`: at each position, the greedy match
consumes the whitespace up to (and including) the last `'\n'` of the maximal
whitespace run that is preceded by at least one whitespace character, and is
replaced by a single `'\n'`. -/
def subWsNlGo : Nat → List Char → List Char
  | 0, l => l
  | _ + 1, [] => []
  | fuel + 1, c :: rest =>
    match lastNlPos ((c :: rest).takeWhile pyWs) with
    | some p => '\n' :: subWsNlGo fuel ((c :: rest).drop (p + 1))
    | none => c :: subWsNlGo fuel rest

def subWsNl (l : List Char) : List Char := subWsNlGo l.length l

/-- Model of `re.sub(r"\n\s+", "\n", s)`: a newline followed by at least one
whitespace character consumes the maximal whitespace run after it. -/
def subNlWsGo : Nat → List Char → List Char
  | 0, l => l
  | _ + 1, [] => []
  | fuel + 1, c :: rest =>
    if c == '\n' && (match rest.head? with | some d => pyWs d | none => false) then
      '\n' :: subNlWsGo fuel (rest.dropWhile pyWs)
    else
      c :: subNlWsGo fuel rest

def subNlWs (l : List Char) : List Char := subNlWsGo l.length l

/-- Model of `re.sub(r" \x7b2,\x7d", " ", s)`: a run of two or more spaces
collapses to a single space. -/
def collapseSpaces2Go : Nat → List Char → List Char
  | 0, l => l
  | _ + 1, [] => []
  | fuel + 1, c :: rest =>
    if c == ' ' && (rest.head? == some ' ') then
      ' ' :: collapseSpaces2Go fuel (rest.dropWhile (fun d => d == ' '))
    else
      c :: collapseSpaces2Go fuel rest

def collapseSpaces2 (l : List Char) : List Char := collapseSpaces2Go l.length l

/-- Python `str.strip()` (ASCII whitespace model). -/
def stripPy (l : List Char) : List Char :=
  ((l.dropWhile pyWs).reverse.dropWhile pyWs).reverse

/-- Model of `_replace_ambiguous_terms`. -/
def replaceAmbiguousL (l : List Char) : List Char :=
  stripPy (collapseSpaces2 (subNlWs (subWsNl (applyReplacements l))))

/-- Model of `re.sub(r"\s+", " ", s)`: every maximal whitespace run becomes
one space. -/
def collapseWsGo : Nat → List Char → List Char
  | 0, l => l
  | _ + 1, [] => []
  | fuel + 1, c :: rest =>
    if pyWs c then ' ' :: collapseWsGo fuel (rest.dropWhile pyWs)
    else c :: collapseWsGo fuel rest

def collapseWs (l : List Char) : List Char := collapseWsGo l.length l

/-- The whitespace-normalized, ambiguous-term-substituted form of the source
used by `_summarize_source` before the length test. -/
def cleanedSource (source : String) : List Char :=
  replaceAmbiguousL (collapseWs (stripPy source.data))

/-- Model of `_summarize_source`. -/
def summarizeSource (source : String) : String :=
  if source = "" then "No original request provided."
  else if (cleanedSource source).length ≤ 140 then String.mk (cleanedSource source)
  else String.mk ((cleanedSource source).take 137 ++ "...".data)

def buildInputsSection (focus audience : String) (source : String) : String :=
  "Inputs (brief):\n" ++ String.intercalate "\n"
    ["- Primary focus: " ++ focus ++ ".",
     "- Audience/context: " ++ audience ++ ".",
     "- Source request recap: " ++ summarizeSource source]

/-! ### `rewrite_prompt` -/

/-- The 8 sections of the rewrite, in the fixed order of the `sections` list
in `rewrite_prompt`: Role, Task, Inputs, Constraints, Output Format, Steps,
Success Criteria, Refusal Boundaries. -/
def orderedSections (text : String) : List String :=
  let keywords := extractKeywords text
  let focus := buildFocusPhrase keywords
  let audience := buildAudiencePhrase keywords
  ["Role:\n" ++ buildRoleLine keywords,
   "Task:\n" ++ buildTaskLine focus,
   buildInputsSection focus audience text,
   constraintsSection,
   formatSection,
   buildStepsSection focus,
   successSection,
   refusalSection]

/-- `"\n\n".join(sections).strip()` followed by `_replace_ambiguous_terms`. -/
def rewriteBody (text : String) : String :=
  String.mk (replaceAmbiguousL (stripPy (String.intercalate "\n\n" (orderedSections text)).data))

/-- Model of `rewrite_prompt(analysis, text)`; `raise ValueError(...)` is
embedded as `Except.error` with the exception's message. -/
def rewritePrompt (analysis : Option Analysis) (text : String) : Except String String :=
  match analysis with
  | none => Except.error "analysis data is required for rewrite"
  | some _ => Except.ok (rewriteBody text)

/-! ## Helper lemmas -/

theorem withFallback_ne_nil (l : List String) : withFallback l ≠ [] := by
  unfold withFallback
  split
  · simp
  · rename_i h
    simpa [List.isEmpty_iff] using h

theorem buildNotes_ne_nil (c : Checks) (amb vague : List String) (dang : Nat) :
    buildNotes c amb vague dang ≠ [] := by
  unfold buildNotes
  exact withFallback_ne_nil _

theorem countTrue_le_eight (c : Checks) : countTrue c ≤ 8 := by
  unfold countTrue
  have b1 : c.has_role.toNat ≤ 1 := by cases c.has_role <;> simp
  have b2 : c.has_task.toNat ≤ 1 := by cases c.has_task <;> simp
  have b3 : c.has_inputs.toNat ≤ 1 := by cases c.has_inputs <;> simp
  have b4 : c.has_constraints.toNat ≤ 1 := by cases c.has_constraints <;> simp
  have b5 : c.has_format.toNat ≤ 1 := by cases c.has_format <;> simp
  have b6 : c.has_examples.toNat ≤ 1 := by cases c.has_examples <;> simp
  have b7 : c.has_steps.toNat ≤ 1 := by cases c.has_steps <;> simp
  have b8 : c.has_success_criteria.toNat ≤ 1 := by cases c.has_success_criteria <;> simp
  omega

theorem calculateScore_le_eighty (c : Checks) (amb vague : List String) (dang : Nat) :
    calculateScore c amb vague dang ≤ 80 := by
  unfold calculateScore
  have h8 : countTrue c ≤ 8 := countTrue_le_eight c
  have hv : (10 : Int) * (countTrue c : Int) -
      (5 * (amb.length : Int) + 2 * (vague.length : Int) + 3 * (dang : Int)) ≤ 80 := by
    omega
  exact max_le (by norm_num) (le_trans (min_le_right _ _) hv)

/-! ## The claims -/

/-- Claim C1: for every non-absent analysis and every text, the string
returned by `rewrite` is exactly the result of joining the 8 sections (in the
fixed order Role, Task, Inputs, Constraints, Output Format, Steps, Success
Criteria, Refusal Boundaries) with blank lines and then running the
ambiguous-term substitution pass `_replace_ambiguous_terms`, whose final
steps collapse the stray horizontal whitespace and whitespace-only lines; and
the section list has exactly 8 entries. -/
theorem claim_C1 (a : Analysis) (text : String) :
    rewritePrompt (some a) text =
      Except.ok (String.mk (replaceAmbiguousL (stripPy
        (String.intercalate "\n\n" (orderedSections text)).data))) ∧
    (orderedSections text).length = 8 :=
  ⟨rfl, rfl⟩

/-- Claim C6: for the empty input text, `analyze` returns all 8 checks false,
score 0, and notes equal to exactly the 8 fixed missing-check messages in
check-declaration order, with no fallback note. -/
theorem claim_C6 :
    (analyzePrompt "").checks =
      ⟨false, false, false, false, false, false, false, false⟩ ∧
    (analyzePrompt "").score = 0 ∧
    (analyzePrompt "").notes =
      [roleNote, taskNote, inputsNote, constraintsNote, formatNote,
       examplesNote, stepsNote, successNote] ∧
    fallbackNote ∉ (analyzePrompt "").notes := by
  decide

set_option maxHeartbeats 1000000 in
/-- Claim C7: `analyze` is total — for every string input it returns an
`Analysis` value (the embedding of every operation it performs is a total
function, and the returned value is well-formed: its notes list is never
empty). -/
theorem claim_C7 (text : String) :
    ∃ a : Analysis, analyzePrompt text = a ∧ a.notes ≠ [] := by
  refine ⟨analyzePrompt text, rfl, ?_⟩
  unfold analyzePrompt
  exact buildNotes_ne_nil _ _ _ _

/-- Claim C8: `rewrite` with an absent analysis fails with the
invalid-argument error, and with any non-absent analysis it returns a string
without failing. -/
theorem claim_C8 :
    (∀ text : String,
      rewritePrompt none text = Except.error "analysis data is required for rewrite") ∧
    (∀ (a : Analysis) (text : String),
      ∃ s : String, rewritePrompt (some a) text = Except.ok s) :=
  ⟨fun _ => rfl, fun _ text => ⟨rewriteBody text, rfl⟩⟩

/-- Claim C9: `rewrite` depends only on its text argument — any two
non-absent analyses give byte-identical output, and repeating the call with
the same inputs gives byte-identical output. -/
theorem claim_C9 (a₁ a₂ : Analysis) (text : String) :
    rewritePrompt (some a₁) text = rewritePrompt (some a₂) text ∧
    rewritePrompt (some a₁) text = rewritePrompt (some a₁) text :=
  ⟨rfl, rfl⟩

/-- Claim C2 as stated is false: the text `"a1b"` contains a numeral (the
digit `1`), but the numeral regex of `_has_constraints` requires word
boundaries around the digit run (`\b\d+(?:\.\d+)?\b`), which fail between
letters and digits, and no constraint keyword occurs, so
`checks.has_constraints` is `false`. -/
theorem claim_C2_counterexample :
    ("a1b".data.any Char.isDigit) = true ∧
    (analyzePrompt "a1b").checks.has_constraints = false := by
  decide

set_option maxHeartbeats 1000000 in
/-- Claim C2 (amended): the constraints detector fires on constraint language
OR presence of a numeral delimited by word boundaries (a digit run not
directly adjacent to a letter, digit, or underscore); for every text
containing such a numeral, `checks.has_constraints` is true. -/
theorem claim_C2 (text : String) (h : hasBoundedNumber text.data = true) :
    (analyzePrompt text).checks.has_constraints = true := by
  have hc : hasConstraints text.data = true := by
    unfold hasConstraints
    rw [h]
    rfl
  unfold analyzePrompt
  exact hc

/-- Witness for claim C2 at the concrete input `"ship 3 units"`. -/
theorem claim_C2_witness :
    hasBoundedNumber "ship 3 units".data = true ∧
    (analyzePrompt "ship 3 units").checks.has_constraints = true :=
  ⟨by decide, claim_C2 "ship 3 units" (by decide)⟩

set_option maxRecDepth 40000 in
/-- Claim C3 as stated is false: a source text of 200 space characters has a
whitespace-normalized recap of length 0 (not 140), because the recap is only
truncated to 140 characters when the normalized, term-substituted text is
longer than 140 characters. -/
theorem claim_C3_counterexample :
    (String.mk (List.replicate 200 ' ')).length = 200 ∧
    (summarizeSource (String.mk (List.replicate 200 ' '))).length = 0 := by
  decide

/-- Claim C3 (amended): for every source text of exactly 200 characters whose
whitespace-normalized, ambiguous-term-substituted form is still longer than
140 characters, the source-request recap interpolated into the Inputs section
is exactly 140 characters long, including the trailing `"..."`. -/
theorem claim_C3 (source : String) (hlen : source.length = 200)
    (hbig : 140 < (cleanedSource source).length) :
    (summarizeSource source).length = 140 := by
  have hne : source ≠ "" := by
    intro he
    subst he
    exact absurd hlen (by decide)
  unfold summarizeSource
  rw [if_neg hne, if_neg (by omega : ¬ (cleanedSource source).length ≤ 140)]
  show ((cleanedSource source).take 137 ++ "...".data).length = 140
  rw [List.length_append, List.length_take]
  have h137 : min 137 (cleanedSource source).length = 137 :=
    min_eq_left (by omega)
  rw [h137]
  rfl

set_option maxRecDepth 40000 in
/-- Witness for claim C3 at a concrete 200-character source (200 copies of
`'a'`). -/
theorem claim_C3_witness :
    (String.mk (List.replicate 200 'a')).length = 200 ∧
    140 < (cleanedSource (String.mk (List.replicate 200 'a'))).length ∧
    (summarizeSource (String.mk (List.replicate 200 'a'))).length = 140 :=
  ⟨by decide, by decide, claim_C3 _ (by decide) (by decide)⟩

/-- The ambiguous-vocabulary terms other than `"help me with"` and its
contained shorter term `"help"`. -/
def c4OtherTerms : List String :=
  ["marketing plan", "user friendly", "efficient", "as needed", "optimize",
   "flexible", "scalable", "strategy", "improve", "assist", "better",
   "robust", "modern", "easy", "nice"]

theorem findTermsGo_nil (lowered : List Char) (found : List String) :
    findTermsGo lowered found [] = found := rfl

theorem findTermsGo_skip (lowered : List Char) (found : List String)
    (t : String) (ts : List String)
    (h : containsSub t.data lowered = false) :
    findTermsGo lowered found (t :: ts) = findTermsGo lowered found ts := by
  simp only [findTermsGo, h, Bool.false_eq_true, if_false]

theorem findTermsGo_add (lowered : List Char) (found : List String)
    (t : String) (ts : List String)
    (h : containsSub t.data lowered = true)
    (h2 : found.any (fun ex => containsSub t.data ex.data) = false) :
    findTermsGo lowered found (t :: ts) = findTermsGo lowered (found ++ [t]) ts := by
  simp only [findTermsGo, h, h2, Bool.false_eq_true, if_true, if_false]

theorem findTermsGo_contained (lowered : List Char) (found : List String)
    (t : String) (ts : List String)
    (h : containsSub t.data lowered = true)
    (h2 : found.any (fun ex => containsSub t.data ex.data) = true) :
    findTermsGo lowered found (t :: ts) = findTermsGo lowered found ts := by
  simp only [findTermsGo, h, h2, if_true]

set_option maxHeartbeats 1000000 in
/-- Claim C4: for every text whose only vocabulary match is the phrase
`"help me with"` (no ambiguous term other than `"help me with"` and its
substring `"help"` occurs), the reported ambiguous terms are exactly
`["help"]`: the contained shorter term is suppressed by the containment rule
and the longer match is renamed to `"help"` for output. -/
theorem claim_C4 (text : String)
    (hyes : containsSub "help me with".data (lowerL text.data) = true)
    (hno : ∀ t ∈ c4OtherTerms, containsSub t.data (lowerL text.data) = false) :
    (analyzePrompt text).flags.ambiguous_terms = ["help"] := by
  have h01 := hno "marketing plan" (by simp [c4OtherTerms])
  have h02 := hno "user friendly" (by simp [c4OtherTerms])
  have h03 := hno "efficient" (by simp [c4OtherTerms])
  have h04 := hno "as needed" (by simp [c4OtherTerms])
  have h05 := hno "optimize" (by simp [c4OtherTerms])
  have h06 := hno "flexible" (by simp [c4OtherTerms])
  have h07 := hno "scalable" (by simp [c4OtherTerms])
  have h08 := hno "strategy" (by simp [c4OtherTerms])
  have h09 := hno "improve" (by simp [c4OtherTerms])
  have h10 := hno "assist" (by simp [c4OtherTerms])
  have h11 := hno "better" (by simp [c4OtherTerms])
  have h12 := hno "robust" (by simp [c4OtherTerms])
  have h13 := hno "modern" (by simp [c4OtherTerms])
  have h14 := hno "easy" (by simp [c4OtherTerms])
  have h15 := hno "nice" (by simp [c4OtherTerms])
  have hgoal : normalizeTerms (findTerms ambTermOrder text) = ["help"] := by
    unfold findTerms ambTermOrder
    rw [findTermsGo_skip _ _ _ _ h01, findTermsGo_skip _ _ _ _ h02,
      findTermsGo_add _ _ _ _ hyes (by decide),
      findTermsGo_skip _ _ _ _ h03, findTermsGo_skip _ _ _ _ h04,
      findTermsGo_skip _ _ _ _ h05, findTermsGo_skip _ _ _ _ h06,
      findTermsGo_skip _ _ _ _ h07, findTermsGo_skip _ _ _ _ h08,
      findTermsGo_skip _ _ _ _ h09, findTermsGo_skip _ _ _ _ h10,
      findTermsGo_skip _ _ _ _ h11, findTermsGo_skip _ _ _ _ h12,
      findTermsGo_skip _ _ _ _ h13]
    cases hhelp : containsSub "help".data (lowerL text.data)
    · rw [findTermsGo_skip _ _ _ _ hhelp, findTermsGo_skip _ _ _ _ h14,
        findTermsGo_skip _ _ _ _ h15, findTermsGo_nil]
      decide
    · rw [findTermsGo_contained _ _ _ _ hhelp (by decide),
        findTermsGo_skip _ _ _ _ h14, findTermsGo_skip _ _ _ _ h15,
        findTermsGo_nil]
      decide
  unfold analyzePrompt
  exact hgoal

/-- Witness for claim C4 at the concrete input `"help me with taxes"`. -/
theorem claim_C4_witness :
    containsSub "help me with".data (lowerL "help me with taxes".data) = true ∧
    (analyzePrompt "help me with taxes").flags.ambiguous_terms = ["help"] :=
  ⟨by decide, claim_C4 "help me with taxes" (by decide) (by decide)⟩

set_option maxHeartbeats 1000000 in
/-- Claim C5: for every input text, the score equals 10 times the number of
true checks minus `5*ambiguous + 2*vague + 3*dangling`, clamped to
`[0, 100]`; in particular, with exactly 5 true checks, 2 ambiguous terms,
1 vague quantifier, and 0 dangling pronouns, the score is 38. -/
theorem claim_C5 (text : String) :
    (analyzePrompt text).score =
      max 0 (min 100 (10 * (countTrue (analyzePrompt text).checks : Int) -
        (5 * ((analyzePrompt text).flags.ambiguous_terms.length : Int) +
         2 * ((analyzePrompt text).flags.vague_quantifiers.length : Int) +
         3 * ((analyzePrompt text).flags.dangling_pronouns : Int)))) ∧
    (countTrue (analyzePrompt text).checks = 5 →
      (analyzePrompt text).flags.ambiguous_terms.length = 2 →
      (analyzePrompt text).flags.vague_quantifiers.length = 1 →
      (analyzePrompt text).flags.dangling_pronouns = 0 →
      (analyzePrompt text).score = 38) := by
  have hmain : (analyzePrompt text).score =
      max 0 (min 100 (10 * (countTrue (analyzePrompt text).checks : Int) -
        (5 * ((analyzePrompt text).flags.ambiguous_terms.length : Int) +
         2 * ((analyzePrompt text).flags.vague_quantifiers.length : Int) +
         3 * ((analyzePrompt text).flags.dangling_pronouns : Int)))) := by
    unfold analyzePrompt calculateScore
    rfl
  refine ⟨hmain, fun h1 h2 h3 h4 => ?_⟩
  rw [hmain, h1, h2, h3, h4]
  decide

/-- Witness for claim C5 at a concrete text with exactly 5 true checks,
2 ambiguous terms, 1 vague quantifier, and 0 dangling pronouns. -/
theorem claim_C5_witness :
    (analyzePrompt "Write given. Output json. For instance nice easy some. First.").score = 38 :=
  (claim_C5 "Write given. Output json. For instance nice easy some. First.").2
    (by decide) (by decide) (by decide) (by decide)

/-- Claim C10: for every input text, the score is at most 80 — the base is at
most 10 points per each of the 8 checks and the penalty is nonnegative, so
the upper clamp at 100 never binds. -/
theorem claim_C10 (text : String) : (analyzePrompt text).score ≤ 80 :=
  calculateScore_le_eighty _ _ _ _

end PromptMirror
